import Mathlib

/-!
Verification development for the `jriver` Home Assistant custom integration
(`custom_components/jriver`).  The definitions below are a shallow embedding of
the integration's data model and of the coordinator logic in
`coordinator.py`, `const.py` and `entity.py`.

Python dictionaries keyed by zone name are embedded as insertion-ordered
association lists (`StrMap`); `dictGet` is `dict.get(k, None)` and
`dictInsert` is `d[k] = v` (overwrite in place, append if absent).
Timestamps (`dt.datetime` values produced by `dt_util.utcnow()`) are embedded
as natural numbers.  Playlist entries (`list[dict]` in the source) are
embedded as opaque naturals.
-/

namespace JRiver

/-- Insertion-ordered string-keyed dictionary, the embedding of a Python
`dict[str, V]`. -/
abbrev StrMap (V : Type) := List (String × V)

/-- Embedding of `d.get(k, None)`. -/
def dictGet {V : Type} : StrMap V → String → Option V
  | [], _ => none
  | (k, v) :: t, s => if k = s then some v else dictGet t s

/-- Embedding of the statement `d[k] = v`: overwrite the existing binding in
place, otherwise append. -/
def dictInsert {V : Type} : StrMap V → String → V → StrMap V
  | [], k, v => [(k, v)]
  | (k0, v0) :: t, k, v =>
    if k0 = k then (k0, v) :: t else (k0, v0) :: dictInsert t k v

/-- Playback state enumeration (`hamcws.PlaybackState`); the coordinator only
compares states for equality. -/
inductive PlaybackState
  | stopped
  | waiting
  | paused
  | playing
deriving DecidableEq, Repr

/-- The fields of `hamcws.PlaybackInfo` that the coordinator logic reads:
`position_ms` (0 models the falsy values of `if playback_info.position_ms:`),
`file_key` and `state`. -/
structure PlaybackInfo where
  positionMs : Nat
  fileKey : Int
  state : PlaybackState
deriving DecidableEq, Repr

/-- `hamcws.Zone`: id, name and the active flag. -/
structure Zone where
  id : Nat
  name : String
  active : Bool
deriving DecidableEq, Repr

/-- `hamcws.MediaServerInfo`: the fields read by the coordinator. -/
structure MediaServerInfo where
  name : String
  platform : String
  version : String
  supportsAudioPathDirect : Bool
deriving DecidableEq, Repr

/-- `hamcws.BrowsePath`: a named rule carrying a list of media types
(`media_types`); media types are embedded as strings. -/
structure BrowsePath where
  name : String
  mediaTypes : List String
deriving DecidableEq, Repr

/-- `MediaServerData` from `coordinator.py` (a frozen dataclass): the snapshot
published after every poll cycle.  `view_mode` is embedded as a natural and
playlists as lists of opaque naturals. -/
structure MediaServerData where
  serverInfo : Option MediaServerInfo := none
  playbackInfoByZone : StrMap PlaybackInfo := []
  isDirectByZone : StrMap Bool := []
  positionUpdatedAtByZone : StrMap Nat := []
  playlistByZone : StrMap (List Nat) := []
  zones : List Zone := []
  viewMode : Nat := 0
  browsePaths : Option (List BrowsePath) := none
  lastPathRefresh : Option Nat := none
deriving DecidableEq, Repr

/-- `MediaServerData.get_active_zone_name`:
`next((z.name for z in self.zones if z.active), None)`. -/
def getActiveZoneName (d : MediaServerData) : Option String :=
  (d.zones.find? (fun z => z.active)).map Zone.name

/-- `MediaServerData.get_active_zone_id`:
`next((z.id for z in self.zones if z.active), None)`. -/
def getActiveZoneId (d : MediaServerData) : Option Nat :=
  (d.zones.find? (fun z => z.active)).map Zone.id

/-- The zone used by `_get_val_for_zone` when no target zone is given: the
first active zone, else `zones[0]` when the list is non-empty, else none
(lines 82-84 of `coordinator.py`). -/
def effectiveActiveZone (zones : List Zone) : Option Zone :=
  match zones.find? (fun z => z.active) with
  | some z => some z
  | none => zones.head?

/-- The branch of `_get_val_for_zone` taken when `target_zone` is falsy. -/
def getValNoTarget {V : Type} (d : MediaServerData) (vals : StrMap V) :
    Option V :=
  match effectiveActiveZone d.zones with
  | some z => dictGet vals z.name
  | none => none

/-- `MediaServerData._get_val_for_zone`.  Python's `if target_zone:` treats
both `None` and the empty string as falsy, hence the `s = ""` test. -/
def getValForZone {V : Type} (d : MediaServerData) (vals : StrMap V)
    (target : Option String) : Option V :=
  match target with
  | some s => if s = "" then getValNoTarget d vals else dictGet vals s
  | none => getValNoTarget d vals

/-- `MediaServerData.get_playback_info`. -/
def getPlaybackInfo (d : MediaServerData) (target : Option String) :
    Option PlaybackInfo :=
  getValForZone d d.playbackInfoByZone target

/-- `MediaServerData.get_audio_path_is_direct`. -/
def getAudioPathIsDirect (d : MediaServerData) (target : Option String) :
    Option Bool :=
  getValForZone d d.isDirectByZone target

/-- `MediaServerData.get_playlist`. -/
def getPlaylist (d : MediaServerData) (target : Option String) :
    Option (List Nat) :=
  getValForZone d d.playlistByZone target

/-- `MediaServerData.get_position_updated_at`. -/
def getPositionUpdatedAt (d : MediaServerData) (target : Option String) :
    Option Nat :=
  getValForZone d d.positionUpdatedAtByZone target

/-- Split a character list on the dot separator. -/
def splitDots : List Char → List (List Char)
  | [] => [[]]
  | c :: t =>
    let rest := splitDots t
    if c = ('.' : Char) then [] :: rest
    else match rest with
      | [] => [[c]]
      | seg :: segs => (c :: seg) :: segs

/-- Numeric value of a digit segment. -/
def digitsToNat (cs : List Char) : Nat :=
  cs.foldl (fun a c => a * 10 + (c.toNat - 48)) 0

/-- Dotted version string as a list of numeric components. -/
def versionComponents (s : String) : List Nat :=
  (splitDots s.data).map digitsToNat

/-- Component-wise `≥` on version component lists; a missing component counts
as zero. -/
def componentsGE : List Nat → List Nat → Bool
  | [], bs => bs.all (fun b => b == 0)
  | a :: as_, [] => if 0 < a then true else componentsGE as_ []
  | a :: as_, b :: bs => if a > b then true else if a < b then false
      else componentsGE as_ bs

/-- Modelled from the spec: the external `awesomeversion` library (not part of
this repository) is used by `_can_refresh_paths` only through
`AwesomeVersion(v) >= "32.0.6"`; the spec describes this as a semantic
version ordering, embedded here as component-wise numeric comparison of the
dot-separated version strings. -/
def versionGE (a b : String) : Bool :=
  componentsGE (versionComponents a) (versionComponents b)

/-- The version threshold for browse rule retrieval. -/
def minRulesVersion : String := "32.0.6"

/-- The `"Unknown"` version sentinel. -/
def unknownVersion : String := "Unknown"

/-- `_can_refresh_paths` from `const.py`:
`v = ms.media_server_info.version if ms.media_server_info else None` and then
`v and v != "Unknown" and AwesomeVersion(v) >= "32.0.6"` (falsy results are
collapsed to `false`). -/
def canRefreshPaths (msInfo : Option MediaServerInfo) : Bool :=
  match msInfo with
  | none => false
  | some i =>
    (i.version != "") && (i.version != unknownVersion)
      && versionGE i.version minRulesVersion

/-- The `"TVSHOW"` media type value. -/
def tvshowType : String := "TVSHOW"

/-- The `"TV_SHOW"` media class value. -/
def tvShowClass : String := "TV_SHOW"

/-- `MC_FIELD_TO_HA_MEDIATYPE` from `const.py`. -/
def MC_FIELD_TO_HA_MEDIATYPE : StrMap String :=
  [("Audio", "MUSIC"),
   ("Artist", "ARTIST"),
   ("Album", "ALBUM"),
   ("Album Artist (auto)", "ARTIST"),
   ("Composer", "ARTIST"),
   ("Video", "VIDEO"),
   ("Images", "IMAGE"),
   ("Playlists", "PLAYLIST"),
   ("Shows", "TVSHOW"),
   ("Series", "TVSHOW"),
   ("Genre", "GENRE"),
   ("Podcast", "PODCAST")]

/-- `MC_FIELD_TO_HA_MEDIACLASS` from `const.py`: the comprehension
`{k: "TV_SHOW" if v == "TVSHOW" else v for k, v in MC_FIELD_TO_HA_MEDIATYPE.items()}`. -/
def MC_FIELD_TO_HA_MEDIACLASS : StrMap String :=
  MC_FIELD_TO_HA_MEDIATYPE.map
    (fun kv => (kv.1, if kv.2 = tvshowType then tvShowClass else kv.2))

/-- The table-lookup branch of `_classify_browse_path` in `browse_media.py`:
`mt = MC_FIELD_TO_HA_MEDIATYPE.get(path.name); mc = ...; if mt and mc:
return MediaClass[mc], MediaType[mt]`.  Truthiness of a string is
non-emptiness. -/
def classifyByTables (name : String) : Option (String × String) :=
  match dictGet MC_FIELD_TO_HA_MEDIATYPE name,
      dictGet MC_FIELD_TO_HA_MEDIACLASS name with
  | some mt, some mc =>
    if mt != "" && mc != "" then some (mc, mt) else none
  | _, _ => none

/-- The synthetic `BrowsePath("Playlists")` appended by `_get_paths` in
`coordinator.py`, tagged with `MediaType.PLAYLIST` (value `"playlist"`). -/
def playlistsPath : BrowsePath :=
  { name := "Playlists", mediaTypes := ["playlist"] }

/-- `_refresh_paths_if_necessary` from `coordinator.py`, as a pure function of
the media server's cached info (`ms.media_server_info`), the previous
snapshot, the coordinator's `_last_path_refresh` field, the current time, the
`current_version` argument and the browse rules a fetch would return
(already through `convert_browse_rules`).  The result pairs the returned path
list with whether `_get_paths` ran. -/
def refreshPathsIfNecessary (msInfo : Option MediaServerInfo)
    (data : MediaServerData) (lastRefresh : Option Nat) (now : Nat)
    (currentVersion : String) (fetchedRules : List BrowsePath) :
    List BrowsePath × Bool :=
  if ¬ canRefreshPaths msInfo then ([], false)
  else
    match data.browsePaths, lastRefresh, data.serverInfo with
    | some ps, some t, some si =>
      if now - t ≥ 900 then (fetchedRules ++ [playlistsPath], true)
      else if si.version ≠ currentVersion then
        (fetchedRules ++ [playlistsPath], true)
      else (ps, false)
    | _, _, _ => (fetchedRules ++ [playlistsPath], true)

/-- The results every remote fetch of one `_async_update_data` cycle would
deliver, together with the cycle's `pos_updated_at = dt_util.utcnow()`
timestamp.  Per-zone fetches are keyed by zone name (the key the coordinator
itself uses for every per-zone dictionary). -/
structure FetchData where
  serverInfo : MediaServerInfo
  zones : List Zone
  viewMode : Nat
  playbackFetch : String → PlaybackInfo
  audioPathDirectFetch : String → Bool
  audioPathFetch : String → Bool
  playlistFetch : String → List Nat
  browseRulesFetch : List BrowsePath
  now : Nat

/-- Accumulator of the `for i, task in enumerate(playback_info_tasks)` loop:
the freshly built `playback_info_by_zone` and `position_updated_at_by_zone`
dictionaries and the `zones_to_fully_refresh` set (embedded as a
duplicate-free list in insertion order). -/
structure LoopState where
  playbackInfoByZone : StrMap PlaybackInfo
  positionUpdatedAtByZone : StrMap Nat
  zonesToFullyRefresh : List String
deriving DecidableEq, Repr

/-- `set.add` for the `zones_to_fully_refresh` set. -/
def setInsert (l : List String) (s : String) : List String :=
  if s ∈ l then l else l ++ [s]

/-- One iteration of the playback-info loop (`coordinator.py` lines 176-212)
for the zone `z` with fetched info `info`. -/
def zoneLoopStep (prevPB : StrMap PlaybackInfo) (now : Nat) (st : LoopState)
    (z : Zone) (info : PlaybackInfo) : LoopState :=
  { playbackInfoByZone := dictInsert st.playbackInfoByZone z.name info,
    positionUpdatedAtByZone :=
      if info.positionMs ≠ 0 then
        dictInsert st.positionUpdatedAtByZone z.name now
      else st.positionUpdatedAtByZone,
    zonesToFullyRefresh :=
      match dictGet prevPB z.name with
      | none => setInsert st.zonesToFullyRefresh z.name
      | some lastInfo =>
        if lastInfo.fileKey ≠ info.fileKey then
          setInsert st.zonesToFullyRefresh z.name
        else if lastInfo.state ≠ info.state then
          setInsert st.zonesToFullyRefresh z.name
        else st.zonesToFullyRefresh }

/-- The playback-info loop, iterating over the fetched zones in order. -/
def zoneLoop (prevPB : StrMap PlaybackInfo) (now : Nat)
    (fetch : String → PlaybackInfo) : List Zone → LoopState → LoopState
  | [], st => st
  | z :: zs, st =>
    zoneLoop prevPB now fetch zs (zoneLoopStep prevPB now st z (fetch z.name))

/-- The `for zone, task in ..._tasks.items(): d[zone] = task.result()` loops
(`coordinator.py` lines 237-241): store the fetched value for every zone
needing a full refresh into the dictionary `d`. -/
def applyFullRefresh {V : Type} (fetch : String → V) (d : StrMap V) :
    List String → StrMap V
  | [] => d
  | z :: t => applyFullRefresh fetch (dictInsert d z (fetch z)) t

/-- Everything one `_async_update_data` cycle produces.  `coordinator.py`
line 214/215 binds the previous snapshot's `is_direct_by_zone` and
`playlist_by_zone` dictionary objects and lines 237-241 then mutate those
objects in place, so the contents of the previous snapshot's two dictionary
objects after the cycle (`prevIsDirectAfter`, `prevPlaylistAfter`) are
exactly the dictionaries stored into the new snapshot. -/
structure CycleOutput where
  newData : MediaServerData
  zonesToFullyRefresh : List String
  prevIsDirectAfter : StrMap Bool
  prevPlaylistAfter : StrMap (List Nat)
deriving DecidableEq, Repr

/-- The empty accumulator the playback-info loop starts from: the loop builds
`playback_info_by_zone`, `position_updated_at_by_zone` and
`zones_to_fully_refresh` afresh every cycle. -/
def emptyLoopState : LoopState :=
  { playbackInfoByZone := [],
    positionUpdatedAtByZone := [],
    zonesToFullyRefresh := [] }

/-- The successful path of `_async_update_data` (`coordinator.py` lines
151-265): run the playback loop, perform the full-refresh fetches for the
marked zones (choosing `get_audio_path_direct` or `get_audio_path` by
`server_info.supports_audio_path_direct`), refresh browse paths if
necessary, and assemble the new snapshot. -/
def runCycle (prev : MediaServerData) (lastPathRefresh : Option Nat)
    (f : FetchData) : CycleOutput :=
  let st := zoneLoop prev.playbackInfoByZone f.now f.playbackFetch f.zones
    emptyLoopState
  let isDirectFetch := fun z =>
    if f.serverInfo.supportsAudioPathDirect then f.audioPathDirectFetch z
    else f.audioPathFetch z
  let isDirectByZone :=
    if st.zonesToFullyRefresh ≠ [] then
      applyFullRefresh isDirectFetch prev.isDirectByZone st.zonesToFullyRefresh
    else prev.isDirectByZone
  let playlistByZone :=
    if st.zonesToFullyRefresh ≠ [] then
      applyFullRefresh f.playlistFetch prev.playlistByZone
        st.zonesToFullyRefresh
    else prev.playlistByZone
  let paths := refreshPathsIfNecessary (some f.serverInfo) prev
    lastPathRefresh f.now f.serverInfo.version f.browseRulesFetch
  { newData :=
      { serverInfo := some f.serverInfo,
        playbackInfoByZone := st.playbackInfoByZone,
        positionUpdatedAtByZone := st.positionUpdatedAtByZone,
        isDirectByZone := isDirectByZone,
        playlistByZone := playlistByZone,
        zones := f.zones,
        viewMode := f.viewMode,
        browsePaths := some paths.1,
        lastPathRefresh := none },
    zonesToFullyRefresh := st.zonesToFullyRefresh,
    prevIsDirectAfter := isDirectByZone,
    prevPlaylistAfter := playlistByZone }

/-- The error taxonomy of the `hamcws` client caught by
`_async_update_data`. -/
inductive FetchErrorKind
  | invalidAuth
  | cannotConnect
  | mediaServerError
  | invalidRequest
deriving DecidableEq, Repr

/-- The two signals `_async_update_data` can raise to the hosting
framework. -/
inductive UpdateSignal
  | configEntryAuthFailed
  | updateFailed
deriving DecidableEq, Repr

/-- What the fetch sequence of one cycle does: either every fetch succeeds
with the given results, or some fetch raises an error of the given kind. -/
inductive FetchOutcome
  | ok (f : FetchData)
  | err (k : FetchErrorKind)

/-- `_async_update_data` including its exception translation
(`coordinator.py` lines 267-283): `InvalidAuthError` becomes
`ConfigEntryAuthFailed`; `CannotConnectError`, `MediaServerError` and
`InvalidRequestError` become `UpdateFailed`. -/
def updateData (prev : MediaServerData) (lastPathRefresh : Option Nat) :
    FetchOutcome → Except UpdateSignal CycleOutput
  | .ok f => .ok (runCycle prev lastPathRefresh f)
  | .err .invalidAuth => .error .configEntryAuthFailed
  | .err .cannotConnect => .error .updateFailed
  | .err .mediaServerError => .error .updateFailed
  | .err .invalidRequest => .error .updateFailed

/-- Outcome of one wrapped command method body: completes, or raises one of
the listed exception kinds (`entity.py` catches `CannotConnectError` and
`InvalidAuthError`). -/
inductive CommandOutcome
  | completes
  | raisesCannotConnect
  | raisesInvalidAuth
  | raisesOther
deriving DecidableEq, Repr

/-- The `cmd` wrapper from `entity.py`: run the wrapped method, then request
one coordinator refresh; `CannotConnectError` and `InvalidAuthError` are
logged and swallowed.  The result is the number of refresh requests issued
paired with the exception (if any) escaping the wrapper. -/
def cmdWrapper : CommandOutcome → Nat × Option CommandOutcome
  | .completes => (1, none)
  | .raisesCannotConnect => (0, none)
  | .raisesInvalidAuth => (0, none)
  | .raisesOther => (0, some .raisesOther)

/-! Concrete fixtures used to instantiate the theorems below. -/

/-- A `MediaServerInfo` with the given version string. -/
def mkInfo (v : String) : MediaServerInfo :=
  { name := "", platform := "", version := v,
    supportsAudioPathDirect := false }

/-- A server info whose version is the `"Unknown"` sentinel. -/
def infoUnknown : MediaServerInfo := mkInfo unknownVersion

/-- An active zone named A. -/
def zoneA : Zone := { id := 1, name := "A", active := true }

/-- An inactive zone named A. -/
def zoneInactive : Zone := { id := 1, name := "A", active := false }

/-- A playing track at position 5000 ms. -/
def pbPlaying : PlaybackInfo :=
  { positionMs := 5000, fileKey := 1, state := .playing }

/-- A paused track keyed under the empty zone name. -/
def pbEmptyKey : PlaybackInfo :=
  { positionMs := 1, fileKey := 2, state := .paused }

/-- A fetch round at the given time: one zone A, always reporting
`pbPlaying`. -/
def fetchAt (now : Nat) : FetchData :=
  { serverInfo := infoUnknown,
    zones := [zoneA],
    viewMode := 0,
    playbackFetch := fun _ => pbPlaying,
    audioPathDirectFetch := fun _ => true,
    audioPathFetch := fun _ => true,
    playlistFetch := fun _ => [7],
    browseRulesFetch := [],
    now := now }

/-- The coordinator's initial snapshot (`self.data = MediaServerData()`). -/
def emptyData : MediaServerData := {}

/-- The snapshot published by a first cycle at time 100. -/
def snap1 : MediaServerData := (runCycle emptyData none (fetchAt 100)).newData

/-- The snapshot published by a second cycle at time 200 with identical
playback info. -/
def snap2 : MediaServerData := (runCycle snap1 none (fetchAt 200)).newData

/-- A snapshot whose zone list holds a single inactive zone. -/
def dataNoActive : MediaServerData := { zones := [zoneInactive] }

/-- A snapshot whose zone list holds a single active zone. -/
def dataOneActive : MediaServerData := { zones := [zoneA] }

/-- A snapshot that already holds zone A's playback info, so a cycle fed the
same info marks nothing for full refresh. -/
def dataSteady : MediaServerData :=
  { playbackInfoByZone := [(zoneA.name, pbPlaying)] }

/-- A snapshot whose playback mapping is keyed by the empty zone name. -/
def dataEmptyName : MediaServerData :=
  { playbackInfoByZone := [(("" : String), pbEmptyKey)] }

/-- A snapshot holding a cached (empty) browse path list fetched from a
server that supports browse rules. -/
def dataCached : MediaServerData :=
  { browsePaths := some [], serverInfo := some (mkInfo minRulesVersion) }

/-! Basic dictionary lemmas. -/

theorem dictGet_insert_self {V : Type} (d : StrMap V) (k : String) (v : V) :
    dictGet (dictInsert d k v) k = some v := by
  induction d with
  | nil => simp [dictInsert, dictGet]
  | cons kv t ih =>
    obtain ⟨k0, v0⟩ := kv
    unfold dictInsert
    by_cases h : k0 = k
    · simp [dictGet, h]
    · simp [dictGet, h, ih]

theorem dictGet_insert_ne {V : Type} (d : StrMap V) (k : String) (v : V)
    (s : String) (h : k ≠ s) :
    dictGet (dictInsert d k v) s = dictGet d s := by
  induction d with
  | nil => simp [dictInsert, dictGet, h]
  | cons kv t ih =>
    obtain ⟨k0, v0⟩ := kv
    unfold dictInsert
    by_cases h0 : k0 = k
    · subst h0
      simp [dictGet, h]
    · simp [dictGet, h0, ih]

theorem dictGet_map_value {V W : Type} (g : V → W) (l : StrMap V)
    (k : String) :
    dictGet (l.map (fun kv => (kv.1, g kv.2))) k = (dictGet l k).map g := by
  induction l with
  | nil => rfl
  | cons kv t ih =>
    obtain ⟨k0, v0⟩ := kv
    by_cases h : k0 = k <;> simp [dictGet, h, ih]

theorem dictGet_mem {V : Type} (l : StrMap V) (k : String) (v : V)
    (h : dictGet l k = some v) : (k, v) ∈ l := by
  induction l with
  | nil => cases h
  | cons kv t ih =>
    obtain ⟨k0, v0⟩ := kv
    by_cases h0 : k0 = k
    · subst h0
      simp [dictGet] at h
      simp [h]
    · simp [dictGet, h0] at h
      exact List.mem_cons_of_mem _ (ih h)

theorem mem_setInsert (l : List String) (s n : String) :
    n ∈ setInsert l s ↔ n ∈ l ∨ n = s := by
  unfold setInsert
  by_cases h : s ∈ l
  · simp only [if_pos h]
    constructor
    · exact Or.inl
    · rintro (h1 | rfl)
      · exact h1
      · exact h
  · simp [if_neg h]

/-! Lemmas about the playback-info loop. -/

theorem zoneLoopStep_refresh_mem (prevPB : StrMap PlaybackInfo) (now : Nat)
    (st : LoopState) (z : Zone) (info : PlaybackInfo) (n : String) :
    n ∈ (zoneLoopStep prevPB now st z info).zonesToFullyRefresh ↔
      n ∈ st.zonesToFullyRefresh ∨
        (n = z.name ∧ (dictGet prevPB z.name = none ∨
          ∃ l, dictGet prevPB z.name = some l ∧
            (l.fileKey ≠ info.fileKey ∨ l.state ≠ info.state))) := by
  unfold zoneLoopStep
  cases h : dictGet prevPB z.name with
  | none => simp [mem_setInsert, h]
  | some l =>
    by_cases hf : l.fileKey ≠ info.fileKey
    · simp [hf, mem_setInsert, h]
    · by_cases hs : l.state ≠ info.state
      · simp [hf, hs, mem_setInsert, h]
      · simp [hf, hs, h]

theorem zoneLoop_refresh_mem (prevPB : StrMap PlaybackInfo) (now : Nat)
    (fetch : String → PlaybackInfo) (zs : List Zone) (st : LoopState)
    (n : String) :
    n ∈ (zoneLoop prevPB now fetch zs st).zonesToFullyRefresh ↔
      n ∈ st.zonesToFullyRefresh ∨
        ∃ z, z ∈ zs ∧ z.name = n ∧ (dictGet prevPB z.name = none ∨
          ∃ l, dictGet prevPB z.name = some l ∧
            (l.fileKey ≠ (fetch z.name).fileKey ∨
              l.state ≠ (fetch z.name).state)) := by
  induction zs generalizing st with
  | nil => simp [zoneLoop]
  | cons z zs ih =>
    rw [zoneLoop, ih, zoneLoopStep_refresh_mem]
    constructor
    · rintro ((h | ⟨rfl, hc⟩) | ⟨z1, hmem, hname, hc⟩)
      · exact Or.inl h
      · exact Or.inr ⟨z, List.mem_cons_self z zs, rfl, hc⟩
      · exact Or.inr ⟨z1, List.mem_cons_of_mem _ hmem, hname, hc⟩
    · rintro (h | ⟨z1, hmem, hname, hc⟩)
      · exact Or.inl (Or.inl h)
      · rcases List.mem_cons.mp hmem with rfl | hmem1
        · exact Or.inl (Or.inr ⟨hname.symm, hc⟩)
        · exact Or.inr ⟨z1, hmem1, hname, hc⟩

theorem zoneLoop_pos_not_mem (prevPB : StrMap PlaybackInfo) (now : Nat)
    (fetch : String → PlaybackInfo) (zs : List Zone) (st : LoopState)
    (n : String) (h : n ∉ zs.map Zone.name) :
    dictGet (zoneLoop prevPB now fetch zs st).positionUpdatedAtByZone n =
      dictGet st.positionUpdatedAtByZone n := by
  induction zs generalizing st with
  | nil => rfl
  | cons z zs ih =>
    simp only [List.map_cons, List.mem_cons, not_or] at h
    rw [zoneLoop, ih _ h.2]
    show dictGet (if (fetch z.name).positionMs ≠ 0 then
        dictInsert st.positionUpdatedAtByZone z.name now
      else st.positionUpdatedAtByZone) n = _
    by_cases hc : (fetch z.name).positionMs ≠ 0
    · rw [if_pos hc]
      exact dictGet_insert_ne _ _ _ _ (fun he => h.1 he.symm)
    · rw [if_neg hc]

theorem zoneLoop_pos_mem (prevPB : StrMap PlaybackInfo) (now : Nat)
    (fetch : String → PlaybackInfo) (zs : List Zone) (st : LoopState)
    (n : String) (h : n ∈ zs.map Zone.name) :
    dictGet (zoneLoop prevPB now fetch zs st).positionUpdatedAtByZone n =
      (if (fetch n).positionMs ≠ 0 then some now
        else dictGet st.positionUpdatedAtByZone n) := by
  induction zs generalizing st with
  | nil => cases h
  | cons z zs ih =>
    rw [zoneLoop]
    by_cases hm : n ∈ zs.map Zone.name
    · rw [ih _ hm]
      by_cases hc : (fetch n).positionMs ≠ 0
      · rw [if_pos hc, if_pos hc]
      · rw [if_neg hc, if_neg hc]
        show dictGet (if (fetch z.name).positionMs ≠ 0 then
            dictInsert st.positionUpdatedAtByZone z.name now
          else st.positionUpdatedAtByZone) n = _
        by_cases hz : z.name = n
        · subst hz
          rw [if_neg hc]
        · by_cases hcz : (fetch z.name).positionMs ≠ 0
          · rw [if_pos hcz]
            exact dictGet_insert_ne _ _ _ _ hz
          · rw [if_neg hcz]
    · have hz : z.name = n := by
        simp only [List.map_cons, List.mem_cons] at h
        rcases h with h1 | h1
        · exact h1.symm
        · exact absurd h1 hm
      rw [zoneLoop_pos_not_mem _ _ _ _ _ _ hm]
      subst hz
      show dictGet (if (fetch z.name).positionMs ≠ 0 then
          dictInsert st.positionUpdatedAtByZone z.name now
        else st.positionUpdatedAtByZone) z.name = _
      by_cases hc : (fetch z.name).positionMs ≠ 0
      · rw [if_pos hc, if_pos hc, dictGet_insert_self]
      · rw [if_neg hc, if_neg hc]

/-! Lemmas about the full-refresh fetch loop. -/

theorem applyFullRefresh_get_not_mem {V : Type} (fetch : String → V)
    (d : StrMap V) (zs : List String) (n : String) (h : n ∉ zs) :
    dictGet (applyFullRefresh fetch d zs) n = dictGet d n := by
  induction zs generalizing d with
  | nil => rfl
  | cons z t ih =>
    simp only [List.mem_cons, not_or] at h
    rw [applyFullRefresh, ih _ h.2]
    exact dictGet_insert_ne _ _ _ _ (fun he => h.1 he.symm)

theorem applyFullRefresh_get_mem {V : Type} (fetch : String → V)
    (d : StrMap V) (zs : List String) (n : String) (h : n ∈ zs) :
    dictGet (applyFullRefresh fetch d zs) n = some (fetch n) := by
  induction zs generalizing d with
  | nil => cases h
  | cons z t ih =>
    rw [applyFullRefresh]
    by_cases hm : n ∈ t
    · exact ih _ hm
    · have hz : z = n := by
        rcases List.mem_cons.mp h with h1 | h1
        · exact h1.symm
        · exact absurd h1 hm
      subst hz
      rw [applyFullRefresh_get_not_mem _ _ _ _ hm, dictGet_insert_self]

/-! Definitional projections of `runCycle`. -/

theorem runCycle_pos (prev : MediaServerData) (lastPR : Option Nat)
    (f : FetchData) :
    (runCycle prev lastPR f).newData.positionUpdatedAtByZone =
      (zoneLoop prev.playbackInfoByZone f.now f.playbackFetch f.zones
        emptyLoopState).positionUpdatedAtByZone := rfl

theorem runCycle_refresh (prev : MediaServerData) (lastPR : Option Nat)
    (f : FetchData) :
    (runCycle prev lastPR f).zonesToFullyRefresh =
      (zoneLoop prev.playbackInfoByZone f.now f.playbackFetch f.zones
        emptyLoopState).zonesToFullyRefresh := rfl

theorem runCycle_isDirect (prev : MediaServerData) (lastPR : Option Nat)
    (f : FetchData) :
    (runCycle prev lastPR f).newData.isDirectByZone =
      (if (runCycle prev lastPR f).zonesToFullyRefresh ≠ [] then
        applyFullRefresh
          (fun z => if f.serverInfo.supportsAudioPathDirect then
            f.audioPathDirectFetch z else f.audioPathFetch z)
          prev.isDirectByZone (runCycle prev lastPR f).zonesToFullyRefresh
      else prev.isDirectByZone) := rfl

theorem runCycle_playlist (prev : MediaServerData) (lastPR : Option Nat)
    (f : FetchData) :
    (runCycle prev lastPR f).newData.playlistByZone =
      (if (runCycle prev lastPR f).zonesToFullyRefresh ≠ [] then
        applyFullRefresh f.playlistFetch prev.playlistByZone
          (runCycle prev lastPR f).zonesToFullyRefresh
      else prev.playlistByZone) := rfl

theorem runCycle_prevIsDirectAfter (prev : MediaServerData)
    (lastPR : Option Nat) (f : FetchData) :
    (runCycle prev lastPR f).prevIsDirectAfter =
      (if (runCycle prev lastPR f).zonesToFullyRefresh ≠ [] then
        applyFullRefresh
          (fun z => if f.serverInfo.supportsAudioPathDirect then
            f.audioPathDirectFetch z else f.audioPathFetch z)
          prev.isDirectByZone (runCycle prev lastPR f).zonesToFullyRefresh
      else prev.isDirectByZone) := rfl

theorem runCycle_prevPlaylistAfter (prev : MediaServerData)
    (lastPR : Option Nat) (f : FetchData) :
    (runCycle prev lastPR f).prevPlaylistAfter =
      (if (runCycle prev lastPR f).zonesToFullyRefresh ≠ [] then
        applyFullRefresh f.playlistFetch prev.playlistByZone
          (runCycle prev lastPR f).zonesToFullyRefresh
      else prev.playlistByZone) := rfl

/-! Lemmas about `_get_val_for_zone`. -/

theorem getValForZone_some_ne {V : Type} (d : MediaServerData)
    (vals : StrMap V) (s : String) (h : s ≠ "") :
    getValForZone d vals (some s) = dictGet vals s := by
  simp [getValForZone, h]

theorem getValForZone_none_eq {V : Type} (d : MediaServerData)
    (vals : StrMap V) :
    getValForZone d vals none =
      (match effectiveActiveZone d.zones with
        | some z => getValForZone d vals (some z.name)
        | none => none) := by
  cases h : effectiveActiveZone d.zones with
  | none => simp [getValForZone, getValNoTarget, h]
  | some z =>
    by_cases hz : z.name = ""
    · simp [getValForZone, getValNoTarget, h, hz]
    · simp [getValForZone, getValNoTarget, h, hz]

/-! Claim C1. -/

/-- C1 counterexample: zone A reports the same nonzero position (5000 ms) in
two consecutive cycles (run at times 100 and 200), so its reported position
did not change between the two fetches, yet the position-updated-at value
recorded for it differs between the two published snapshots.  This refutes
the claim that the timestamp changes iff the position strictly changed: the
loop stamps the timestamp whenever the reported position is nonzero
(`if playback_info.position_ms:`), not when it changed. -/
theorem C1_counterexample :
    ((fetchAt 200).playbackFetch zoneA.name).positionMs =
      ((fetchAt 100).playbackFetch zoneA.name).positionMs
    ∧ dictGet snap2.positionUpdatedAtByZone zoneA.name ≠
      dictGet snap1.positionUpdatedAtByZone zoneA.name := by decide

/-- C1 (amended): on every cycle, the position-updated-at entry recorded for
each fetched zone equals the cycle timestamp when that zone's newly reported
position is nonzero and is absent otherwise; consequently, provided every
timestamp in the previous snapshot predates the cycle timestamp, the
recorded value changes between the two snapshots iff the new position is
nonzero or the previous snapshot recorded a timestamp for that zone. -/
theorem C1_position_timestamp_amended (prev : MediaServerData)
    (lastPR : Option Nat) (f : FetchData)
    (hfresh : ∀ n t, dictGet prev.positionUpdatedAtByZone n = some t →
      t < f.now) :
    ∀ z ∈ f.zones,
      dictGet (runCycle prev lastPR f).newData.positionUpdatedAtByZone
          z.name =
        (if (f.playbackFetch z.name).positionMs ≠ 0 then some f.now else none)
      ∧ (dictGet (runCycle prev lastPR f).newData.positionUpdatedAtByZone
            z.name ≠
          dictGet prev.positionUpdatedAtByZone z.name ↔
        ((f.playbackFetch z.name).positionMs ≠ 0 ∨
          dictGet prev.positionUpdatedAtByZone z.name ≠ none)) := by
  intro z hz
  have hmem : z.name ∈ f.zones.map Zone.name := List.mem_map_of_mem _ hz
  have h1 : dictGet
      (runCycle prev lastPR f).newData.positionUpdatedAtByZone z.name =
      (if (f.playbackFetch z.name).positionMs ≠ 0 then some f.now
        else none) := by
    rw [runCycle_pos, zoneLoop_pos_mem _ _ _ _ _ _ hmem]
    rfl
  refine ⟨h1, ?_⟩
  rw [h1]
  by_cases hc : (f.playbackFetch z.name).positionMs ≠ 0
  · rw [if_pos hc]
    constructor
    · intro _
      exact Or.inl hc
    · intro _
      cases hp : dictGet prev.positionUpdatedAtByZone z.name with
      | none => simp
      | some t =>
        have hlt := hfresh _ _ hp
        simp only [Ne, Option.some.injEq]
        omega
  · rw [if_neg hc]
    constructor
    · intro hne
      exact Or.inr (fun he => hne he.symm)
    · rintro (h | h)
      · exact absurd h hc
      · exact fun he => h he.symm

/-- C1 witness: a first cycle over the empty snapshot at time 100 records the
cycle timestamp for zone A, whose reported position is nonzero. -/
theorem C1_witness :
    dictGet
      (runCycle emptyData none (fetchAt 100)).newData.positionUpdatedAtByZone
      zoneA.name =
      (if ((fetchAt 100).playbackFetch zoneA.name).positionMs ≠ 0 then
        some (fetchAt 100).now else none) :=
  (C1_position_timestamp_amended emptyData none (fetchAt 100)
    (fun n t h => by simp [emptyData, dictGet] at h) zoneA (by decide)).1

/-! Claim C2. -/

/-- C2 counterexample: a snapshot whose zone list is the non-empty
`[zoneInactive]` with no active zone makes `get_active_zone_name` return
nothing, not the first zone's name A, refuting the claimed first-zone
fallback. -/
theorem C2_counterexample :
    getActiveZoneName dataNoActive = none
    ∧ dataNoActive.zones.head? = some zoneInactive := by decide

/-- C2 (amended): `get_active_zone_name` returns the name of the first zone
whose `active` flag is set when one exists, and nothing otherwise; there is
no fallback to the first zone of a non-empty list (that fallback lives only
in `_get_val_for_zone`). -/
theorem C2_active_zone_amended (d : MediaServerData) :
    ((∀ z ∈ d.zones, z.active = false) → getActiveZoneName d = none)
    ∧ (∀ n, getActiveZoneName d = some n →
        ∃ z, z ∈ d.zones ∧ z.active = true ∧ z.name = n)
    ∧ ((∃ z, z ∈ d.zones ∧ z.active = true) →
        ∃ n, getActiveZoneName d = some n) := by
  refine ⟨?_, ?_, ?_⟩
  · intro h
    unfold getActiveZoneName
    rw [List.find?_eq_none.mpr ?_]
    · rfl
    · intro x hx
      simp [h x hx]
  · intro n hn
    unfold getActiveZoneName at hn
    cases hf : d.zones.find? (fun z => z.active) with
    | none =>
      rw [hf] at hn
      cases hn
    | some z =>
      rw [hf] at hn
      simp only [Option.map_some', Option.some.injEq] at hn
      exact ⟨z, List.mem_of_find?_eq_some hf,
        by simpa using List.find?_some hf, hn⟩
  · rintro ⟨z, hz, ha⟩
    have hs : (d.zones.find? (fun z => z.active)).isSome := by
      rw [List.find?_isSome]
      exact ⟨z, hz, by simp [ha]⟩
    obtain ⟨z1, hz1⟩ := Option.isSome_iff_exists.mp hs
    exact ⟨z1.name, by simp [getActiveZoneName, hz1]⟩

/-- C2 witness: on a snapshot with one active zone A, the returned name A
does belong to an active zone of the list. -/
theorem C2_witness :
    ∃ z, z ∈ dataOneActive.zones ∧ z.active = true ∧ z.name = zoneA.name :=
  (C2_active_zone_amended dataOneActive).2.1 zoneA.name (by decide)

/-! Claim C3. -/

/-- C3 counterexample: one cycle over the initial empty snapshot (zone A is
new, hence marked for full refresh) leaves the previous snapshot's
`is_direct_by_zone` dictionary object holding zone A's freshly fetched
value, while it was empty before the cycle: the previous snapshot's mapping
is mutated in place, refuting the claim that no field of the previous
snapshot ever changes. -/
theorem C3_counterexample :
    (runCycle emptyData none (fetchAt 100)).prevIsDirectAfter ≠
      emptyData.isDirectByZone := by decide

/-- C3 (amended): after a cycle, the previous snapshot's `is_direct_by_zone`
and `playlist_by_zone` dictionary objects hold exactly the dictionaries
stored in the freshly assembled snapshot (the two snapshots share those
objects, mutated in place for every zone marked for full refresh); when no
zone is marked, the previous snapshot's two dictionaries are unchanged.  The
remaining fields of the previous snapshot are never touched. -/
theorem C3_snapshot_mutation_amended (prev : MediaServerData)
    (lastPR : Option Nat) (f : FetchData) :
    ((runCycle prev lastPR f).prevIsDirectAfter =
        (runCycle prev lastPR f).newData.isDirectByZone
      ∧ (runCycle prev lastPR f).prevPlaylistAfter =
        (runCycle prev lastPR f).newData.playlistByZone)
    ∧ ((runCycle prev lastPR f).zonesToFullyRefresh = [] →
        (runCycle prev lastPR f).prevIsDirectAfter = prev.isDirectByZone
        ∧ (runCycle prev lastPR f).prevPlaylistAfter =
          prev.playlistByZone) := by
  refine ⟨⟨rfl, rfl⟩, fun h => ⟨?_, ?_⟩⟩
  · rw [runCycle_prevIsDirectAfter,
      if_neg (show ¬ (runCycle prev lastPR f).zonesToFullyRefresh ≠ []
        from fun hne => hne h)]
  · rw [runCycle_prevPlaylistAfter,
      if_neg (show ¬ (runCycle prev lastPR f).zonesToFullyRefresh ≠ []
        from fun hne => hne h)]

/-- C3 witness: a cycle that marks no zone for full refresh (zone A's
playback info is unchanged) leaves the previous snapshot's two dictionary
objects untouched. -/
theorem C3_witness :
    (runCycle dataSteady none (fetchAt 100)).prevIsDirectAfter =
      dataSteady.isDirectByZone
    ∧ (runCycle dataSteady none (fetchAt 100)).prevPlaylistAfter =
      dataSteady.playlistByZone :=
  (C3_snapshot_mutation_amended dataSteady none (fetchAt 100)).2 (by decide)

/-! Claim C4. -/

/-- C4: a zone fetched this cycle is marked for the expensive secondary
fetch (audio-direct flag and current playlist) iff the previous snapshot has
no playback entry for it, or its file key changed, or its playback state
changed; every zone not marked keeps the previous cycle's audio-direct and
playlist values unchanged in the new snapshot. -/
theorem C4_full_refresh_iff (prev : MediaServerData) (lastPR : Option Nat)
    (f : FetchData) :
    ∀ z ∈ f.zones,
      (z.name ∈ (runCycle prev lastPR f).zonesToFullyRefresh ↔
        (dictGet prev.playbackInfoByZone z.name = none ∨
          ∃ l, dictGet prev.playbackInfoByZone z.name = some l ∧
            (l.fileKey ≠ (f.playbackFetch z.name).fileKey ∨
              l.state ≠ (f.playbackFetch z.name).state)))
      ∧ (z.name ∉ (runCycle prev lastPR f).zonesToFullyRefresh →
          dictGet (runCycle prev lastPR f).newData.isDirectByZone z.name =
            dictGet prev.isDirectByZone z.name
          ∧ dictGet (runCycle prev lastPR f).newData.playlistByZone z.name =
            dictGet prev.playlistByZone z.name) := by
  intro z hz
  constructor
  · rw [runCycle_refresh, zoneLoop_refresh_mem]
    constructor
    · rintro (h | ⟨z1, hmem1, hname, hc⟩)
      · cases h
      · rw [hname] at hc
        exact hc
    · intro hc
      exact Or.inr ⟨z, hz, rfl, hc⟩
  · intro hnm
    constructor
    · rw [runCycle_isDirect]
      by_cases hr : (runCycle prev lastPR f).zonesToFullyRefresh ≠ []
      · rw [if_pos hr]
        exact applyFullRefresh_get_not_mem _ _ _ _ hnm
      · rw [if_neg hr]
    · rw [runCycle_playlist]
      by_cases hr : (runCycle prev lastPR f).zonesToFullyRefresh ≠ []
      · rw [if_pos hr]
        exact applyFullRefresh_get_not_mem _ _ _ _ hnm
      · rw [if_neg hr]

/-- C4 witness: over the empty initial snapshot, zone A has no previous
playback entry and is therefore marked for the full refresh. -/
theorem C4_witness :
    zoneA.name ∈ (runCycle emptyData none (fetchAt 100)).zonesToFullyRefresh :=
  (C4_full_refresh_iff emptyData none (fetchAt 100) zoneA
    (by decide)).1.mpr (Or.inl (by decide))

/-! Claim C5. -/

/-- C5: the browse-rule capability check holds iff the server info is
present with a version that is non-empty, not the `"Unknown"` sentinel and
at least 32.0.6 under the (spec-modelled) semantic version ordering; in
particular it rejects version 31.0.10, `"Unknown"` and the empty version,
and accepts 32.0.6 and 32.1.0. -/
theorem C5_capability_check :
    (∀ info : MediaServerInfo,
      canRefreshPaths (some info) = true ↔
        (info.version ≠ "" ∧ info.version ≠ unknownVersion ∧
          versionGE info.version minRulesVersion = true))
    ∧ canRefreshPaths none = false
    ∧ canRefreshPaths (some (mkInfo ("31.0.10"))) = false
    ∧ canRefreshPaths (some (mkInfo minRulesVersion)) = true
    ∧ canRefreshPaths (some (mkInfo ("32.1.0"))) = true
    ∧ canRefreshPaths (some (mkInfo unknownVersion)) = false
    ∧ canRefreshPaths (some (mkInfo (""))) = false := by
  refine ⟨?_, by decide, by decide, by decide, by decide, by decide,
    by decide⟩
  intro info
  simp [canRefreshPaths, Bool.and_eq_true, bne_iff_ne, and_assoc]

/-- C5 witness: a version above the threshold passes the capability
check. -/
theorem C5_witness : canRefreshPaths (some (mkInfo ("33.0.0"))) = true :=
  (C5_capability_check.1 (mkInfo ("33.0.0"))).mpr
    ⟨by decide, by decide, by decide⟩

/-! Claim C6. -/

/-- C6: a wrapped command method that completes issues exactly one refresh
request and lets nothing escape; one that raises a connectivity error issues
no refresh request and lets nothing escape. -/
theorem C6_command_guard :
    cmdWrapper .completes = (1, none)
    ∧ cmdWrapper .raisesCannotConnect = (0, none) := by decide

/-! Claim C7. -/

/-- C7: a fetch failure aborts the cycle, with `InvalidAuthError` translated
into the distinct reauthentication signal and exactly the other three error
kinds (connectivity, malformed request, generic server error) translated
into the generic update-failed signal. -/
theorem C7_error_translation (prev : MediaServerData) (lastPR : Option Nat)
    (k : FetchErrorKind) :
    (updateData prev lastPR (.err k) = .error .configEntryAuthFailed ↔
      k = .invalidAuth)
    ∧ (updateData prev lastPR (.err k) = .error .updateFailed ↔
      k ≠ .invalidAuth) := by
  cases k <;> simp [updateData]

/-- C7 witness: a connectivity failure is translated into the generic
update-failed signal. -/
theorem C7_witness :
    updateData emptyData none (.err .cannotConnect) = .error .updateFailed :=
  (C7_error_translation emptyData none .cannotConnect).2.mpr (by decide)

/-! Claim C8. -/

/-- C8: with a cached browse-path list, a supporting server and an unchanged
version, `_refresh_paths_if_necessary` re-fetches when the last refresh lies
901 seconds in the past (at least 900) and returns the cached list unchanged
when it lies 899 seconds in the past (below 900). -/
theorem C8_path_cadence (info : MediaServerInfo) (d : MediaServerData)
    (ps : List BrowsePath) (t : Nat) (fetched : List BrowsePath)
    (hps : d.browsePaths = some ps) (hsi : d.serverInfo = some info)
    (hcap : canRefreshPaths (some info) = true) :
    (refreshPathsIfNecessary (some info) d (some t) (t + 901) info.version
      fetched).2 = true
    ∧ refreshPathsIfNecessary (some info) d (some t) (t + 899) info.version
      fetched = (ps, false) := by
  have hnn : ¬ ¬ canRefreshPaths (some info) = true := fun hn => hn hcap
  constructor
  · unfold refreshPathsIfNecessary
    rw [hps, hsi, if_neg hnn]
    show (if t + 901 - t ≥ 900 then (fetched ++ [playlistsPath], true)
      else if info.version ≠ info.version then
        (fetched ++ [playlistsPath], true)
      else (ps, false)).2 = true
    rw [if_pos (show t + 901 - t ≥ 900 by omega)]
  · unfold refreshPathsIfNecessary
    rw [hps, hsi, if_neg hnn]
    show (if t + 899 - t ≥ 900 then (fetched ++ [playlistsPath], true)
      else if info.version ≠ info.version then
        (fetched ++ [playlistsPath], true)
      else (ps, false)) = (ps, false)
    rw [if_neg (show ¬ t + 899 - t ≥ 900 by omega),
      if_neg (show ¬ info.version ≠ info.version from fun h => h rfl)]

/-- C8 witness: on a concrete cached snapshot with an unchanged version
32.0.6, 901 seconds trigger a re-fetch and 899 seconds return the cache. -/
theorem C8_witness :
    (refreshPathsIfNecessary (some (mkInfo minRulesVersion)) dataCached
      (some 0) (0 + 901) (mkInfo minRulesVersion).version []).2 = true
    ∧ refreshPathsIfNecessary (some (mkInfo minRulesVersion)) dataCached
      (some 0) (0 + 899) (mkInfo minRulesVersion).version [] = ([], false) :=
  C8_path_cadence (mkInfo minRulesVersion) dataCached [] 0 [] rfl rfl
    (by decide)

/-! Claim C9. -/

/-- C9 counterexample: on a snapshot whose playback mapping holds an entry
under the empty zone name and whose zone list is empty, passing the explicit
zone name `""` returns nothing although the mapping holds a value for it:
Python's `if target_zone:` treats the empty string like no argument,
refuting the claim for the explicit empty name. -/
theorem C9_counterexample :
    getPlaybackInfo dataEmptyName (some ("")) = none
    ∧ dictGet dataEmptyName.playbackInfoByZone ("") = some pbEmptyKey := by
  decide

/-- C9 (amended): for every non-empty explicit zone name, each of the four
by-zone accessors returns that zone's entry of its mapping (or nothing if
absent); passing no zone name returns exactly what passing the effective
active zone's name would return (the first active zone, else the first zone
of a non-empty list), or nothing when there are no zones.  Only the empty
string deviates: it behaves like passing no name. -/
theorem C9_zone_accessor_amended (d : MediaServerData) (s : String) :
    (s ≠ "" →
      getPlaybackInfo d (some s) = dictGet d.playbackInfoByZone s
      ∧ getAudioPathIsDirect d (some s) = dictGet d.isDirectByZone s
      ∧ getPlaylist d (some s) = dictGet d.playlistByZone s
      ∧ getPositionUpdatedAt d (some s) =
        dictGet d.positionUpdatedAtByZone s)
    ∧ (getPlaybackInfo d none =
        (match effectiveActiveZone d.zones with
          | some z => getPlaybackInfo d (some z.name)
          | none => none)
      ∧ getAudioPathIsDirect d none =
        (match effectiveActiveZone d.zones with
          | some z => getAudioPathIsDirect d (some z.name)
          | none => none)
      ∧ getPlaylist d none =
        (match effectiveActiveZone d.zones with
          | some z => getPlaylist d (some z.name)
          | none => none)
      ∧ getPositionUpdatedAt d none =
        (match effectiveActiveZone d.zones with
          | some z => getPositionUpdatedAt d (some z.name)
          | none => none)) := by
  constructor
  · intro h
    exact ⟨getValForZone_some_ne d _ s h, getValForZone_some_ne d _ s h,
      getValForZone_some_ne d _ s h, getValForZone_some_ne d _ s h⟩
  · exact ⟨getValForZone_none_eq d _, getValForZone_none_eq d _,
      getValForZone_none_eq d _, getValForZone_none_eq d _⟩

/-- C9 witness: for the non-empty explicit name A the four accessors read
their mappings directly. -/
theorem C9_witness :
    getPlaybackInfo dataEmptyName (some ("A")) =
      dictGet dataEmptyName.playbackInfoByZone ("A")
    ∧ getAudioPathIsDirect dataEmptyName (some ("A")) =
      dictGet dataEmptyName.isDirectByZone ("A")
    ∧ getPlaylist dataEmptyName (some ("A")) =
      dictGet dataEmptyName.playlistByZone ("A")
    ∧ getPositionUpdatedAt dataEmptyName (some ("A")) =
      dictGet dataEmptyName.positionUpdatedAtByZone ("A") :=
  (C9_zone_accessor_amended dataEmptyName ("A")).1 (by decide)

/-! Claim C10. -/

/-- C10: the media-class table has exactly the key list of the media-type
table; for every key, its class value is its type value with `TVSHOW`
corrected to `TV_SHOW`; consequently every classification the
`_classify_browse_path` table branch produces pairs a type-table value with
its corrected class value. -/
theorem C10_media_tables :
    MC_FIELD_TO_HA_MEDIACLASS.map Prod.fst =
      MC_FIELD_TO_HA_MEDIATYPE.map Prod.fst
    ∧ (∀ k, dictGet MC_FIELD_TO_HA_MEDIACLASS k =
        (dictGet MC_FIELD_TO_HA_MEDIATYPE k).map
          (fun v => if v = tvshowType then tvShowClass else v))
    ∧ (∀ nm mc mt, classifyByTables nm = some (mc, mt) →
        dictGet MC_FIELD_TO_HA_MEDIATYPE nm = some mt
        ∧ mc = (if mt = tvshowType then tvShowClass else mt)) := by
  have hmap : ∀ k, dictGet MC_FIELD_TO_HA_MEDIACLASS k =
      (dictGet MC_FIELD_TO_HA_MEDIATYPE k).map
        (fun v => if v = tvshowType then tvShowClass else v) := by
    intro k
    unfold MC_FIELD_TO_HA_MEDIACLASS
    exact dictGet_map_value (fun v => if v = tvshowType then tvShowClass
      else v) MC_FIELD_TO_HA_MEDIATYPE k
  refine ⟨by decide, hmap, ?_⟩
  intro nm mc mt h
  unfold classifyByTables at h
  split at h
  next mt1 mc1 hT1 hC1 =>
    split at h
    next =>
      simp only [Option.some.injEq, Prod.mk.injEq] at h
      obtain ⟨h1, h2⟩ := h
      subst h1
      subst h2
      have hC := hmap nm
      rw [hT1, hC1] at hC
      simp only [Option.map_some', Option.some.injEq] at hC
      exact ⟨hT1, hC⟩
    next => cases h
  next => cases h

/-- C10 witness: the `Shows` key classifies to the corrected pair. -/
theorem C10_witness :
    dictGet MC_FIELD_TO_HA_MEDIATYPE ("Shows") = some tvshowType
    ∧ tvShowClass =
      (if tvshowType = tvshowType then tvShowClass else tvshowType) :=
  C10_media_tables.2.2 ("Shows") tvShowClass tvshowType (by decide)

end JRiver
